import Mathlib

/-!
Shallow embedding of the simulation core of `FootGame.py` (a small arcade
football game) and proofs about it.

Modelling conventions:
* Python floats are modelled as rationals (`ℚ`); every constant of the source
  (0.95, 5, 60, …) is exactly representable.
* `time.time()` and `random.random()` are modelled as explicit inputs.
* `math.hypot` (an irrational square root) enters the source only in the AI
  steering code; comparisons `hypot d < c` are embedded exactly as
  `d.1 ^ 2 + d.2 ^ 2 < c ^ 2` (equivalent for nonnegative `c`), and the one
  place where the source divides by `hypot dx dy` receives the value as an
  explicit environment input (`AiEnv.moveNorm`).
* Python dictionaries keyed by strings are modelled as association lists;
  `dict.get(k, d)` is `cdGet`, `dict[k] = v` is `cdSet` (update in place or
  append, as CPython dicts do).
* A Python function that can raise (`KeyError` on `d["name"]`, `ValueError`
  on an invalid enum string) is modelled as returning an `Option`.
-/

/-- Model of `SCREEN_W` from the source. -/
def SCREEN_W : ℚ := 800

/-- Model of `SCREEN_H` from the source. -/
def SCREEN_H : ℚ := 600

/-- Model of `AI_MAX_FLOW` from the source. -/
def AI_MAX_FLOW : ℚ := 100

/-- Model of `class SkillType(Enum)` from the source. -/
inductive SkillType where
  | flow
  | stamina
  | ultimate
deriving DecidableEq

/-- Model of `class PlayerType(Enum)` from the source. -/
inductive PlayerType where
  | striker
  | midfielder
  | defender
  | goalkeeper
deriving DecidableEq

/-- The `.value` string of a `PlayerType`, as in the Python enum. -/
def PlayerType.value : PlayerType → String
  | .striker => "striker"
  | .midfielder => "midfielder"
  | .defender => "defender"
  | .goalkeeper => "goalkeeper"

/-- The `PlayerType(s)` enum constructor: `ValueError` on a bad string is
modelled as `none`. -/
def PlayerType.ofString (s : String) : Option PlayerType :=
  if s = "striker" then some .striker
  else if s = "midfielder" then some .midfielder
  else if s = "defender" then some .defender
  else if s = "goalkeeper" then some .goalkeeper
  else none

/-- Model of `class ControlType(Enum)` from the source. -/
inductive ControlType where
  | keyboard
  | ai
deriving DecidableEq

/-- The `.value` string of a `ControlType`. -/
def ControlType.value : ControlType → String
  | .keyboard => "keyboard"
  | .ai => "ai"

/-- The `ControlType(s)` enum constructor: `ValueError` is `none`. -/
def ControlType.ofString (s : String) : Option ControlType :=
  if s = "keyboard" then some .keyboard
  else if s = "ai" then some .ai
  else none

/-- Model of `class GameState(Enum)` from the source. -/
inductive GameState where
  | menu
  | playing
  | paused
  | goal
  | gameOver
deriving DecidableEq

/-- Model of the Skill dataclass from the source.  The effect dict of the source
holds entries mult / boost / buff / awaken; the simulation core reads
only `effect.get("awaken")`, so the embedding keeps exactly that bit. -/
structure Skill where
  name : String
  type : SkillType
  flow_cost : ℚ
  stamina_cost : ℚ
  cooldown : ℚ
  effectAwaken : Bool
deriving DecidableEq

/-- Registry entry Power Shot: flow type, costs 30 flow and 10 stamina, cooldown 5, effect mult 2. -/
def powerShot : Skill :=
  { name := "Power Shot", type := .flow, flow_cost := 30, stamina_cost := 10,
    cooldown := 5, effectAwaken := false }

/-- Registry entry Iron Tackle: stamina type, costs 0 flow and 40 stamina, cooldown 8, effect boost. -/
def ironTackle : Skill :=
  { name := "Iron Tackle", type := .stamina, flow_cost := 0, stamina_cost := 40,
    cooldown := 8, effectAwaken := false }

/-- Registry entry Field Vision: flow type, costs 40 flow and 20 stamina, cooldown 10, effect buff. -/
def fieldVision : Skill :=
  { name := "Field Vision", type := .flow, flow_cost := 40, stamina_cost := 20,
    cooldown := 10, effectAwaken := false }

/-- Registry entry Awaken: ultimate type, costs AI_MAX_FLOW flow and 0 stamina, cooldown 0, awaken effect. -/
def awakenUlt : Skill :=
  { name := "Awaken", type := .ultimate, flow_cost := AI_MAX_FLOW,
    stamina_cost := 0, cooldown := 0, effectAwaken := true }

/-- The skill registry built in `SkillSystem.__init__` via `register`; the four
names are distinct, so the insertion-ordered dict is this list. -/
def SkillSystem.skills : List Skill := [powerShot, ironTackle, fieldVision, awakenUlt]

/-- Model of `self.skills.get(name)`: dictionary lookup in the registry. -/
def SkillSystem.get (name : String) : Option Skill :=
  SkillSystem.skills.find? (fun sk => sk.name == name)

/-- Model of `d.get(name, 0)` on a cooldown dictionary. -/
def cdGet (cd : List (String × ℚ)) (name : String) : ℚ :=
  match cd.find? (fun kv => kv.1 == name) with
  | some kv => kv.2
  | none => 0

/-- Model of `d[name] = v` on a cooldown dictionary: overwrite the existing entry in
place, else append (CPython dict semantics). -/
def cdSet (cd : List (String × ℚ)) (name : String) (v : ℚ) : List (String × ℚ) :=
  if cd.any (fun kv => kv.1 == name) then
    cd.map (fun kv => if kv.1 == name then (kv.1, v) else kv)
  else
    cd ++ [(name, v)]

/-- Model of `class Ball` state: `pos`, `vel`, `radius`, `friction`. -/
structure Ball where
  posx : ℚ
  posy : ℚ
  velx : ℚ
  vely : ℚ
  radius : ℚ
  friction : ℚ
deriving DecidableEq

/-- Model of `Ball.__init__(x, y)`: position `(x, y)`, zero velocity, radius 8,
friction 0.95. -/
def Ball.init (x y : ℚ) : Ball :=
  { posx := x, posy := y, velx := 0, vely := 0, radius := 8, friction := 19/20 }

/-- Model of `Ball.update(dt, bounds)`: advance by `vel * dt * 60`, apply friction,
then either report a goal (left edge crossed: "B"; right edge crossed: "A")
or clamp the vertical position.  Note the source returns before the clamp on
the goal paths. -/
def Ball.update (b : Ball) (dt : ℚ) (bounds : ℚ × ℚ) : Ball × Option String :=
  let px := b.posx + b.velx * dt * 60
  let py := b.posy + b.vely * dt * 60
  let vx := b.velx * b.friction
  let vy := b.vely * b.friction
  if px < 0 then
    ({ b with posx := px, posy := py, velx := vx, vely := vy }, some "B")
  else if px > bounds.1 then
    ({ b with posx := px, posy := py, velx := vx, vely := vy }, some "A")
  else
    ({ b with posx := px,
              posy := max b.radius (min (bounds.2 - b.radius) py),
              velx := vx, vely := vy }, none)

/-- Model of `class Player` state: identity, position, progression, resource pools,
cooldown dictionary and the awakened-until timestamp.  `size` is the constant
24 and is never serialized; the rendering-only fields are omitted. -/
structure Player where
  name : String
  team : String
  ptype : PlayerType
  ai_lvl : ℤ
  control : ControlType
  posx : ℚ
  posy : ℚ
  level : ℤ
  exp : ℤ
  score : ℤ
  max_stamina : ℚ
  max_flow : ℚ
  stamina : ℚ
  flow : ℚ
  skill_cd : List (String × ℚ)
  awakened_until : ℚ
deriving DecidableEq

/-- Model of `Player.__init__`: fresh player with full stamina, zero flow, empty
cooldowns. -/
def Player.init (name team : String) (ptype : PlayerType) (ai_lvl : ℤ)
    (pos : ℚ × ℚ) (control : ControlType) : Player :=
  { name := name, team := team, ptype := ptype, ai_lvl := ai_lvl,
    control := control, posx := pos.1, posy := pos.2,
    level := 1, exp := 0, score := 0,
    max_stamina := 100, max_flow := AI_MAX_FLOW,
    stamina := 100, flow := 0, skill_cd := [], awakened_until := 0 }

/-- Model of `Player.awaken()`: awakened until `now + 10`, flow reset to 0, stamina
restored to max.  `now` stands for `time.time()`. -/
def Player.awaken (p : Player) (now : ℚ) : Player :=
  { p with awakened_until := now + 10, flow := 0, stamina := p.max_stamina }

/-- Model of `SkillSystem.can_use(p, name)`: the skill must exist, flow and stamina
must cover the costs, and the remaining cooldown (0 when absent) must not be
positive. -/
def SkillSystem.can_use (p : Player) (name : String) : Bool :=
  match SkillSystem.get name with
  | none => false
  | some sk =>
    if p.flow < sk.flow_cost then false
    else if p.stamina < sk.stamina_cost then false
    else if cdGet p.skill_cd name > 0 then false
    else true

/-- Model of `SkillSystem.use(p, name)`: re-validate, deduct the costs, start the
cooldown, and run the awaken transition when the effect of the skill asks for it.
`now` is the `time.time()` the awaken transition would read. -/
def SkillSystem.use (p : Player) (name : String) (now : ℚ) : Player × Bool :=
  if SkillSystem.can_use p name then
    match SkillSystem.get name with
    | some sk =>
      let p1 := { p with flow := p.flow - sk.flow_cost,
                         stamina := p.stamina - sk.stamina_cost,
                         skill_cd := cdSet p.skill_cd name sk.cooldown }
      (if sk.effectAwaken then p1.awaken now else p1, true)
    | none => (p, false)
  else
    (p, false)

/-- Environment inputs drawn by `Player._ai` / `Player._move` during one tick:
`rand` is the `random.random()` draw, `now` is `time.time()`, and `moveNorm`
is the value of `math.hypot(dx, dy)` inside `_move` (irrational in general,
hence supplied as an input). -/
structure AiEnv where
  rand : ℚ
  now : ℚ
  moveNorm : ℚ
deriving DecidableEq

/-- Model of `Player._move(target)`: step toward the target at speed
`2.0 + ai_lvl * 0.3`, plus `2.0` while awakened.  `m` is
`math.hypot(dx, dy) or 1.0`. -/
def Player._move (p : Player) (target : ℚ × ℚ) (env : AiEnv) : Player :=
  let dx := target.1 - p.posx
  let dy := target.2 - p.posy
  let m := if env.moveNorm = 0 then 1 else env.moveNorm
  let spd := 2 + (p.ai_lvl : ℚ) * (3/10) + (if env.now < p.awakened_until then 2 else 0)
  { p with posx := p.posx + dx / m * spd, posy := p.posy + dy / m * spd }

/-- Model of `Player._ai(dt, ball, players)`: role-dependent steering.  The source
compares `math.hypot(Δx, Δy)` with 50 and 30; the embedding compares the
squared distance with 2500 and 900, which is equivalent. -/
def Player._ai (p : Player) (b : Ball) (env : AiEnv) : Player × Ball :=
  let dsq := (p.posx - b.posx) ^ 2 + (p.posy - b.posy) ^ 2
  if p.ptype = PlayerType.striker ∧ dsq < 2500 then
    let direction_x : ℚ := if p.team = "A" then 1 else -1
    (p, { b with velx := direction_x * 10, vely := 0 })
  else if p.ptype = PlayerType.defender then
    if (p.team = "A" ∧ b.posx < SCREEN_W / 2) ∨ (p.team = "B" ∧ b.posx > SCREEN_W / 2) then
      (p._move (b.posx, b.posy) env, b)
    else
      (p._move (SCREEN_W / 2, SCREEN_H / 2) env, b)
  else
    if dsq < 900 then
      (p, { b with velx := (p.posx - b.posx) * (12/100),
                   vely := (p.posy - b.posy) * (12/100) })
    else
      let target := if env.rand < 1/5 then (SCREEN_W / 2, SCREEN_H / 2) else (b.posx, b.posy)
      (p._move target env, b)

/-- Model of `Player.update(dt, ball, players)`: decay every cooldown by `dt` floored
at 0, regenerate flow at 5/s capped at max, then run the AI policy when
AI-controlled.  The `players` roster argument of the source is never read by
the body and is omitted. -/
def Player.update (p : Player) (dt : ℚ) (b : Ball) (env : AiEnv) : Player × Ball :=
  let p1 := { p with skill_cd := p.skill_cd.map (fun kv => (kv.1, max 0 (kv.2 - dt))),
                     flow := min p.max_flow (p.flow + dt * 5) }
  if p1.control = ControlType.ai then p1._ai b env else (p1, b)

/-- Iterated per-tick updates: fold `Player.update` over a list of
`(dt, ball, env)` tick inputs, keeping the player. -/
def Player.updateIter (p : Player) (steps : List (ℚ × Ball × AiEnv)) : Player :=
  steps.foldl (fun q s => (q.update s.1 s.2.1 s.2.2).1) p

/-- The snapshot dictionary produced by `Player.to_dict` / consumed by
`Player.from_dict`: one `Option` per key, `none` when the key is absent. -/
structure Snapshot where
  name : Option String
  team : Option String
  ptype : Option String
  ai_lvl : Option ℤ
  pos : Option (ℚ × ℚ)
  control : Option String
  level : Option ℤ
  exp : Option ℤ
  score : Option ℤ
  max_stamina : Option ℚ
  max_flow : Option ℚ
  stamina : Option ℚ
  flow : Option ℚ
  skill_cd : Option (List (String × ℚ))
  awakened_until : Option ℚ
deriving DecidableEq

/-- The snapshot with every key absent. -/
def Snapshot.empty : Snapshot :=
  { name := none, team := none, ptype := none, ai_lvl := none, pos := none,
    control := none, level := none, exp := none, score := none,
    max_stamina := none, max_flow := none, stamina := none, flow := none,
    skill_cd := none, awakened_until := none }

/-- Model of `Player.to_dict()`: serialize every persisted field. -/
def Player.to_dict (p : Player) : Snapshot :=
  { name := some p.name, team := some p.team, ptype := some p.ptype.value,
    ai_lvl := some p.ai_lvl, pos := some (p.posx, p.posy),
    control := some p.control.value, level := some p.level, exp := some p.exp,
    score := some p.score, max_stamina := some p.max_stamina,
    max_flow := some p.max_flow, stamina := some p.stamina,
    flow := some p.flow, skill_cd := some p.skill_cd,
    awakened_until := some p.awakened_until }

/-- Model of `Player.from_dict(d)`: `d["name"]` and `d["team"]` are mandatory
(`KeyError`, i.e. `none`, when absent); every other field defaults via
`d.get`.  An invalid `ptype`/`control` string (a `ValueError` in the source)
is also `none`.  Note `stamina` defaults to the (possibly defaulted)
`max_stamina` value. -/
def Player.from_dict (d : Snapshot) : Option Player := do
  let name ← d.name
  let team ← d.team
  let pt ← PlayerType.ofString (d.ptype.getD PlayerType.striker.value)
  let ctl ← ControlType.ofString (d.control.getD ControlType.ai.value)
  let pos := d.pos.getD (0, 0)
  let ms := d.max_stamina.getD 100
  some { name := name, team := team, ptype := pt, ai_lvl := d.ai_lvl.getD 1,
         control := ctl, posx := pos.1, posy := pos.2,
         level := d.level.getD 1, exp := d.exp.getD 0, score := d.score.getD 0,
         max_stamina := ms, max_flow := d.max_flow.getD AI_MAX_FLOW,
         stamina := d.stamina.getD ms, flow := d.flow.getD 0,
         skill_cd := d.skill_cd.getD [], awakened_until := d.awakened_until.getD 0 }

/-- The `GameEngine` fields the state machine claims need: current state,
ball, per-team scores, match-start and goal timestamps. -/
structure GameEngine where
  state : GameState
  ball : Ball
  teamsA : ℕ
  teamsB : ℕ
  start : ℚ
  goal_time : ℚ
deriving DecidableEq

/-- Model of `GameEngine._goal_loop()` (state-transition part): once more than 2
seconds have passed since `goal_time`, respawn the ball at `(400, 300)` and
return to `PLAYING`; the rendering calls of the source have no simulation
effect.  `now` is `time.time()`. -/
def GameEngine._goal_loop (e : GameEngine) (now : ℚ) : GameEngine :=
  if now - e.goal_time > 2 then
    { e with ball := Ball.init 400 300, state := GameState.playing }
  else
    e

/-- The resource invariant of spec section 3: stamina and flow within their
pools, no negative cooldown entry. -/
def Player.resourceInv (p : Player) : Prop :=
  0 ≤ p.stamina ∧ p.stamina ≤ p.max_stamina ∧
  0 ≤ p.flow ∧ p.flow ≤ p.max_flow ∧
  ∀ kv ∈ p.skill_cd, 0 ≤ kv.2

/-- Concrete ball for the C5 witness: the left-edge goal example from the spec. -/
def cBall5 : Ball := { Ball.init 5 100 with velx := -10 }

/-- Concrete ball for the C10 witness: the right-edge goal example from the spec. -/
def cBall10 : Ball := { Ball.init 795 100 with velx := 10 }

/-- Concrete ball for the C1 counterexample. -/
def cBall1 : Ball := { Ball.init 5 300 with velx := -10, vely := -20000 }

/-- Concrete ball for the C1 witness: the vertical-clamp example from the spec. -/
def cBall1b : Ball := { Ball.init 400 5 with vely := -5 }

/-- Concrete snapshot for the C2 witness. -/
def cSnap2 : Snapshot :=
  { Snapshot.empty with name := some "You", team := some "B", stamina := some 42 }

/-- Concrete player for the C3 counterexample. -/
def cP3 : Player :=
  { Player.init "T" "A" PlayerType.striker 1 (0, 0) ControlType.keyboard with
      flow := 100, stamina := 50 }

/-- Concrete player for the C3 witness. -/
def cP3w : Player :=
  { Player.init "U" "B" PlayerType.striker 1 (0, 0) ControlType.keyboard with
      flow := 50, stamina := 50 }

/-- Concrete player for the C6 witness. -/
def cP6 : Player := Player.init "W" "A" PlayerType.midfielder 2 (100, 100) ControlType.ai

/-- Concrete tick input for the C6 witness. -/
def cStep6 : ℚ × Ball × AiEnv :=
  (1/60, Ball.init 400 300, { rand := 1/2, now := 0, moveNorm := 1 })

/-- Concrete engine for the C8 witness. -/
def cEngine : GameEngine :=
  { state := GameState.goal, ball := Ball.init 10 10, teamsA := 0, teamsB := 1,
    start := 0, goal_time := 100 }

/-! ### Helper lemmas -/

theorem SkillSystem.get_mem {name : String} {sk : Skill}
    (h : SkillSystem.get name = some sk) :
    sk = powerShot ∨ sk = ironTackle ∨ sk = fieldVision ∨ sk = awakenUlt := by
  have hm := List.mem_of_find?_eq_some h
  simpa [SkillSystem.skills] using hm

theorem can_use_true_iff (p : Player) (name : String) :
    SkillSystem.can_use p name = true ↔
      ∃ sk, SkillSystem.get name = some sk ∧ sk.flow_cost ≤ p.flow ∧
        sk.stamina_cost ≤ p.stamina ∧ cdGet p.skill_cd name ≤ 0 := by
  unfold SkillSystem.can_use
  cases h : SkillSystem.get name with
  | none => simp
  | some sk => split_ifs with h1 h2 h3 <;> simp_all [not_lt]

/-! ### C4 -/

/-- C4: `can_use` returns true iff the skill exists in the registry, flow
covers the flow cost, stamina covers the stamina cost, and the remaining
cooldown for the skill (0 when no entry exists) is at most 0. -/
theorem can_use_spec (p : Player) (name : String) :
    SkillSystem.can_use p name = true ↔
      ∃ sk, SkillSystem.get name = some sk ∧ sk.flow_cost ≤ p.flow ∧
        sk.stamina_cost ≤ p.stamina ∧ cdGet p.skill_cd name ≤ 0 :=
  can_use_true_iff p name

/-! ### C5 -/

/-- C5: `Ball.update` advances the horizontal position by `velx * dt * 60`
and reports a goal exactly on a strict crossing: resulting `x < 0` reports
"B", resulting `x > width` reports "A", and any other resulting `x`
(including exactly 0 or exactly the width) reports no goal. -/
theorem ball_update_goal_spec (b : Ball) (dt w h : ℚ) (hw : 0 ≤ w) :
    (b.update dt (w, h)).1.posx = b.posx + b.velx * dt * 60 ∧
    ((b.update dt (w, h)).2 = some "B" ↔ b.posx + b.velx * dt * 60 < 0) ∧
    ((b.update dt (w, h)).2 = some "A" ↔ w < b.posx + b.velx * dt * 60) ∧
    ((b.update dt (w, h)).2 = none ↔
      0 ≤ b.posx + b.velx * dt * 60 ∧ b.posx + b.velx * dt * 60 ≤ w) := by
  unfold Ball.update
  dsimp only
  split_ifs with h1 h2 <;> simp_all [not_lt] <;> linarith


/-- Witness for C5 at the example given in the spec: ball at `x = 5`, velocity
`(-10, 0)`, `dt = 1/60`, 800-wide field. -/
theorem ball_update_goal_spec_witness :
    (0:ℚ) ≤ 800 ∧
    ((cBall5.update (1/60) (800, 600)).2 = some "B" ↔
      cBall5.posx + cBall5.velx * (1/60) * 60 < 0) :=
  ⟨by norm_num, (ball_update_goal_spec cBall5 (1/60) 800 600 (by norm_num)).2.1⟩

/-! ### C9 -/

/-- C9: `awaken` always sets flow to exactly 0, stamina to exactly
`max_stamina`, and the awakened-until timestamp to `now + 10`, which is
strictly greater than the invocation time. -/
theorem awaken_spec (p : Player) (now : ℚ) :
    (p.awaken now).flow = 0 ∧ (p.awaken now).stamina = p.max_stamina ∧
    (p.awaken now).awakened_until = now + 10 ∧ now < (p.awaken now).awakened_until :=
  ⟨rfl, rfl, rfl, by simp [Player.awaken]⟩

/-! ### C10 -/

/-- C10: every call to `Ball.update` multiplies both velocity components by
the friction coefficient 0.95, and a goal-reporting call leaves the
already-advanced horizontal position beyond the crossed bound. -/
theorem ball_update_friction_spec (b : Ball) (dt w h : ℚ)
    (hf : b.friction = 19/20) :
    (b.update dt (w, h)).1.velx = b.velx * (19/20) ∧
    (b.update dt (w, h)).1.vely = b.vely * (19/20) ∧
    ((b.update dt (w, h)).2 = some "B" →
      (b.update dt (w, h)).1.posx = b.posx + b.velx * dt * 60 ∧
      (b.update dt (w, h)).1.posx < 0) ∧
    ((b.update dt (w, h)).2 = some "A" →
      (b.update dt (w, h)).1.posx = b.posx + b.velx * dt * 60 ∧
      w < (b.update dt (w, h)).1.posx) := by
  unfold Ball.update
  dsimp only
  split_ifs with h1 h2 <;> simp_all [not_lt]


/-- Witness for C10: the right-edge example from the spec, ball at `x = 795` moving
`+10` on an 800-wide field. -/
theorem ball_update_friction_spec_witness :
    cBall10.friction = 19/20 ∧
    (cBall10.update (1/60) (800, 600)).1.velx = cBall10.velx * (19/20) :=
  ⟨rfl, (ball_update_friction_spec cBall10 (1/60) 800 600 rfl).1⟩

/-! ### C8 -/

/-- C8: the Goal to Playing transition fires only once more than 2 seconds
(hence at least 2 seconds) have passed since the recorded goal timestamp, and
it leaves the ball exactly at the center-field respawn point
`(SCREEN_W / 2, SCREEN_H / 2)` with zero velocity. -/
theorem goal_loop_spec (e : GameEngine) (now : ℚ) (hs : e.state = GameState.goal) :
    (e._goal_loop now).state = GameState.playing →
      2 ≤ now - e.goal_time ∧
      (e._goal_loop now).ball.posx = SCREEN_W / 2 ∧
      (e._goal_loop now).ball.posy = SCREEN_H / 2 ∧
      (e._goal_loop now).ball.velx = 0 ∧
      (e._goal_loop now).ball.vely = 0 := by
  unfold GameEngine._goal_loop
  split_ifs with h
  · intro _
    refine ⟨le_of_lt h, ?_, ?_, rfl, rfl⟩ <;> norm_num [Ball.init, SCREEN_W, SCREEN_H]
  · intro hc
    rw [hs] at hc
    cases hc


/-- Witness for C8: an engine in the Goal state, polled 3 seconds after the
goal. -/
theorem goal_loop_spec_witness :
    cEngine.state = GameState.goal ∧
    ((cEngine._goal_loop 103).state = GameState.playing →
      2 ≤ (103:ℚ) - cEngine.goal_time ∧
      (cEngine._goal_loop 103).ball.posx = SCREEN_W / 2 ∧
      (cEngine._goal_loop 103).ball.posy = SCREEN_H / 2 ∧
      (cEngine._goal_loop 103).ball.velx = 0 ∧
      (cEngine._goal_loop 103).ball.vely = 0) :=
  ⟨rfl, goal_loop_spec cEngine 103 rfl⟩

/-! ### C1 -/


/-- C1 counterexample: with nonnegative `dt = 1/60` and bounds `(800, 600)`,
a goal-reporting call leaves the vertical position at `-19700`, far outside
`[radius, 600 - radius] = [8, 592]`: the source returns before the clamp on
the goal paths. -/
theorem ball_update_vertical_counterexample :
    (0:ℚ) ≤ 1/60 ∧
    (cBall1.update (1/60) (800, 600)).2 = some "B" ∧
    (cBall1.update (1/60) (800, 600)).1.posy = -19700 ∧
    (cBall1.update (1/60) (800, 600)).1.posy < cBall1.radius := by
  refine ⟨by norm_num, ?_, ?_, ?_⟩ <;>
    norm_num [cBall1, Ball.init, Ball.update]

/-- C1 (amended): when the call reports no goal and the field is at least two
radii tall, the resulting vertical position lies within
`[radius, height - radius]`; goal-reporting calls skip the clamp. -/
theorem ball_update_vertical_clamped (b : Ball) (dt w h : ℚ)
    (hh : b.radius ≤ h - b.radius)
    (hg : (b.update dt (w, h)).2 = none) :
    b.radius ≤ (b.update dt (w, h)).1.posy ∧
    (b.update dt (w, h)).1.posy ≤ h - b.radius := by
  unfold Ball.update at hg ⊢
  dsimp only at hg ⊢
  split_ifs at hg ⊢ with h1 h2
  exact ⟨le_max_left _ _, max_le hh (min_le_left _ _)⟩


/-- Witness for C1 (amended): the vertical-clamp example from the spec, a ball
approaching the top edge with velocity `(0, -5)`. -/
theorem ball_update_vertical_clamped_witness :
    cBall1b.radius ≤ (600:ℚ) - cBall1b.radius ∧
    (cBall1b.update (1/60) (800, 600)).2 = none ∧
    cBall1b.radius ≤ (cBall1b.update (1/60) (800, 600)).1.posy ∧
    (cBall1b.update (1/60) (800, 600)).1.posy ≤ 600 - cBall1b.radius := by
  refine ⟨by norm_num [cBall1b, Ball.init], by norm_num [cBall1b, Ball.init, Ball.update], ?_⟩
  exact ball_update_vertical_clamped cBall1b (1/60) 800 600
    (by norm_num [cBall1b, Ball.init]) (by norm_num [cBall1b, Ball.init, Ball.update])

/-! ### C2 -/

/-- C2 counterexample: loading the snapshot with every field absent is a
fatal error (the source indexes `d["name"]` directly, a `KeyError`), so the
claim that any subset of fields may be absent fails. -/
theorem from_dict_empty_counterexample : Player.from_dict Snapshot.empty = none := rfl

/-- C2 (amended): `name` and `team` are mandatory; every other field of the
snapshot independently defaults on load (role to striker, control to AI,
position to `(0, 0)`, ai level to 1, level to 1, exp/score to 0, maxima to
100, stamina to the loaded-or-default max stamina, flow to 0, cooldowns to
empty, awakened-until to 0). -/
theorem from_dict_defaults (d : Snapshot) (n t : String)
    (hn : d.name = some n) (ht : d.team = some t)
    (hp : d.ptype = none) (hc : d.control = none) :
    Player.from_dict d = some
      { name := n, team := t, ptype := PlayerType.striker,
        ai_lvl := d.ai_lvl.getD 1, control := ControlType.ai,
        posx := (d.pos.getD (0, 0)).1, posy := (d.pos.getD (0, 0)).2,
        level := d.level.getD 1, exp := d.exp.getD 0, score := d.score.getD 0,
        max_stamina := d.max_stamina.getD 100, max_flow := d.max_flow.getD 100,
        stamina := d.stamina.getD (d.max_stamina.getD 100),
        flow := d.flow.getD 0, skill_cd := d.skill_cd.getD [],
        awakened_until := d.awakened_until.getD 0 } := by
  simp [Player.from_dict, hn, ht, hp, hc, PlayerType.ofString, ControlType.ofString,
        PlayerType.value, ControlType.value, AI_MAX_FLOW]


/-- Witness for C2 (amended): a snapshot holding only `name`, `team` and
`stamina` loads with every other field defaulted. -/
theorem from_dict_defaults_witness :
    Player.from_dict cSnap2 = some
      { name := "You", team := "B", ptype := PlayerType.striker, ai_lvl := 1,
        control := ControlType.ai, posx := 0, posy := 0, level := 1, exp := 0,
        score := 0, max_stamina := 100, max_flow := 100, stamina := 42,
        flow := 0, skill_cd := [], awakened_until := 0 } :=
  from_dict_defaults cSnap2 "You" "B" rfl rfl rfl rfl

/-! ### C7 -/

/-- C7: serializing any player and deserializing the snapshot restores every
persisted field exactly. -/
theorem to_dict_from_dict_roundtrip (p : Player) :
    Player.from_dict (Player.to_dict p) = some p := by
  obtain ⟨nm, tm, pt, al, ct, px, py, lv, ex, sc, ms, mf, st, fl, cd, au⟩ := p
  cases pt <;> cases ct <;>
    simp [Player.from_dict, Player.to_dict, PlayerType.ofString, ControlType.ofString,
          PlayerType.value, ControlType.value]

/-! ### C3 -/

/-- Writing a cooldown entry and reading it back yields the written value. -/
theorem cdGet_cdSet (cd : List (String × ℚ)) (name : String) (v : ℚ) :
    cdGet (cdSet cd name v) name = v := by
  induction cd with
  | nil => simp [cdSet, cdGet]
  | cons kv tl ih =>
    by_cases hk : kv.1 = name
    · simp [cdSet, cdGet, hk, List.any_cons]
    · have hset : cdSet (kv :: tl) name v = kv :: cdSet tl name v := by
        by_cases htl : tl.any (fun kv => kv.1 == name) = true <;>
          simp [cdSet, List.any_cons, hk, htl]
      have hskip : cdGet (kv :: cdSet tl name v) name = cdGet (cdSet tl name v) name := by
        unfold cdGet
        rw [List.find?_cons_of_neg]
        simp [hk]
      rw [hset, hskip]
      exact ih


/-- C3 counterexample: for the Awaken skill (stamina cost 0) on a player with
stamina 50, `use` succeeds but leaves stamina at 100, not at the claimed
`50 - 0 = 50`: the awaken transition overwrites the deduction. -/
theorem use_exact_deduction_counterexample :
    SkillSystem.get "Awaken" = some awakenUlt ∧
    awakenUlt.stamina_cost = 0 ∧
    SkillSystem.can_use cP3 "Awaken" = true ∧
    cP3.stamina = 50 ∧
    (SkillSystem.use cP3 "Awaken" 0).1.stamina = 100 := by
  have hget : SkillSystem.get "Awaken" = some awakenUlt := rfl
  have hcan : SkillSystem.can_use cP3 "Awaken" = true := by
    simp [SkillSystem.can_use, hget, awakenUlt, AI_MAX_FLOW, cP3, Player.init, cdGet]
  refine ⟨hget, rfl, hcan, rfl, ?_⟩
  simp only [SkillSystem.use, hcan, hget, if_true, ite_true]
  simp [awakenUlt, Player.awaken, cP3, Player.init]

/-- A registry skill with nonzero cooldown has positive cooldown. -/
theorem SkillSystem.get_cooldown_pos {name : String} {sk : Skill}
    (h : SkillSystem.get name = some sk) (hne : sk.cooldown ≠ 0) :
    0 < sk.cooldown := by
  rcases SkillSystem.get_mem h with rfl | rfl | rfl | rfl <;>
    first
      | exact absurd rfl hne
      | norm_num [powerShot, ironTackle, fieldVision, awakenUlt]

/-- C3 (amended): `use` fails closed with no mutation when `can_use` is
false; on success it returns true, sets the cooldown entry to exactly the
defined cooldown of the skill, and `can_use` for that skill is false afterwards
whenever that cooldown is nonzero; the exact flow/stamina deductions hold for
every skill whose effect is not the awaken kind, while an awaken-effect skill
instead ends with flow 0 and stamina restored to max. -/
theorem use_spec (p : Player) (name : String) (now : ℚ) :
    (SkillSystem.can_use p name = false → SkillSystem.use p name now = (p, false)) ∧
    (SkillSystem.can_use p name = true →
      ∃ sk, SkillSystem.get name = some sk ∧
        (SkillSystem.use p name now).2 = true ∧
        cdGet (SkillSystem.use p name now).1.skill_cd name = sk.cooldown ∧
        (sk.effectAwaken = false →
          (SkillSystem.use p name now).1.flow = p.flow - sk.flow_cost ∧
          (SkillSystem.use p name now).1.stamina = p.stamina - sk.stamina_cost) ∧
        (sk.effectAwaken = true →
          (SkillSystem.use p name now).1.flow = 0 ∧
          (SkillSystem.use p name now).1.stamina = p.max_stamina) ∧
        (sk.cooldown ≠ 0 →
          SkillSystem.can_use (SkillSystem.use p name now).1 name = false)) := by
  constructor
  · intro h
    simp [SkillSystem.use, h]
  · intro h
    cases hget : SkillSystem.get name with
    | none => simp [SkillSystem.can_use, hget] at h
    | some sk =>
      have hu : SkillSystem.use p name now =
          (if sk.effectAwaken then
              Player.awaken { p with flow := p.flow - sk.flow_cost,
                                     stamina := p.stamina - sk.stamina_cost,
                                     skill_cd := cdSet p.skill_cd name sk.cooldown } now
            else
              { p with flow := p.flow - sk.flow_cost,
                       stamina := p.stamina - sk.stamina_cost,
                       skill_cd := cdSet p.skill_cd name sk.cooldown }, true) := by
        simp [SkillSystem.use, h, hget]
      have hcd : cdGet (SkillSystem.use p name now).1.skill_cd name = sk.cooldown := by
        rw [hu]
        cases heff : sk.effectAwaken <;> simp [Player.awaken, cdGet_cdSet]
      refine ⟨sk, rfl, by rw [hu], hcd, ?_, ?_, ?_⟩
      · intro heff
        rw [hu, heff]
        exact ⟨rfl, rfl⟩
      · intro heff
        rw [hu, heff]
        exact ⟨rfl, rfl⟩
      · intro hne
        have hpos := SkillSystem.get_cooldown_pos hget hne
        have hgt : cdGet (SkillSystem.use p name now).1.skill_cd name > 0 := hcd ▸ hpos
        simp only [SkillSystem.can_use, hget]
        split_ifs <;> rfl


/-- Witness for C3 (amended): `use` of Power Shot succeeds on a player with
flow 50 and stamina 50. -/
theorem use_spec_witness :
    SkillSystem.can_use cP3w "Power Shot" = true ∧
    (SkillSystem.use cP3w "Power Shot" 0).2 = true := by
  have hget : SkillSystem.get "Power Shot" = some powerShot := rfl
  have hcan : SkillSystem.can_use cP3w "Power Shot" = true := by
    norm_num [SkillSystem.can_use, hget, powerShot, cP3w, Player.init, cdGet]
  obtain ⟨sk, hgt, hret, hrest⟩ := (use_spec cP3w "Power Shot" 0).2 hcan
  exact ⟨hcan, hret⟩

/-! ### C6 -/


/-- Model of `awaken` preserves the resource invariant. -/
theorem Player.awaken_resourceInv {p : Player} (hp : p.resourceInv) (now : ℚ) :
    (p.awaken now).resourceInv := by
  obtain ⟨h1, h2, h3, h4, h5⟩ := hp
  exact ⟨h1.trans h2, le_refl _, le_refl _, h3.trans h4, h5⟩

/-- The AI steering step never touches the resource fields. -/
theorem Player._ai_resource_fields (p : Player) (b : Ball) (env : AiEnv) :
    (p._ai b env).1.stamina = p.stamina ∧ (p._ai b env).1.max_stamina = p.max_stamina ∧
    (p._ai b env).1.flow = p.flow ∧ (p._ai b env).1.max_flow = p.max_flow ∧
    (p._ai b env).1.skill_cd = p.skill_cd := by
  unfold Player._ai Player._move
  dsimp only
  split_ifs <;> exact ⟨rfl, rfl, rfl, rfl, rfl⟩

/-- The AI steering step preserves the resource invariant. -/
theorem Player._ai_resourceInv {p : Player} (hp : p.resourceInv) (b : Ball) (env : AiEnv) :
    ((p._ai b env).1).resourceInv := by
  obtain ⟨e1, e2, e3, e4, e5⟩ := Player._ai_resource_fields p b env
  obtain ⟨h1, h2, h3, h4, h5⟩ := hp
  refine ⟨e1 ▸ h1, ?_, e3 ▸ h3, ?_, ?_⟩
  · rw [e1, e2]; exact h2
  · rw [e3, e4]; exact h4
  · rw [e5]; exact h5

/-- One per-tick `update` with `dt ≥ 0` preserves the resource invariant. -/
theorem Player.update_resourceInv {p : Player} {dt : ℚ} (hp : p.resourceInv)
    (hdt : 0 ≤ dt) (b : Ball) (env : AiEnv) :
    ((p.update dt b env).1).resourceInv := by
  obtain ⟨h1, h2, h3, h4, h5⟩ := hp
  have hp1 : ({ p with skill_cd := p.skill_cd.map (fun kv => (kv.1, max 0 (kv.2 - dt))),
                       flow := min p.max_flow (p.flow + dt * 5) } : Player).resourceInv := by
    refine ⟨h1, h2, le_min (h3.trans h4) (by linarith), min_le_left _ _, ?_⟩
    intro kv hkv
    obtain ⟨a, ha, rfl⟩ := List.mem_map.mp hkv
    exact le_max_left 0 _
  unfold Player.update
  dsimp only
  split_ifs with hctl
  · exact Player._ai_resourceInv hp1 b env
  · exact hp1

/-- Iterated per-tick updates with nonnegative `dt`s preserve the resource
invariant. -/
theorem Player.updateIter_resourceInv (steps : List (ℚ × Ball × AiEnv)) :
    ∀ p : Player, p.resourceInv → (∀ s ∈ steps, 0 ≤ s.1) →
      (p.updateIter steps).resourceInv := by
  induction steps with
  | nil => exact fun p hp _ => hp
  | cons s tl ih =>
    intro p hp hdts
    exact ih _ (Player.update_resourceInv hp (hdts s (List.mem_cons_self _ _)) s.2.1 s.2.2)
      (fun x hx => hdts x (List.mem_cons_of_mem _ hx))

/-- Model of `cdSet` preserves a pointwise property of the stored values. -/
theorem cdSet_forall {P : ℚ → Prop} {cd : List (String × ℚ)} {v : ℚ}
    (hcd : ∀ kv ∈ cd, P kv.2) (hv : P v) (name : String) :
    ∀ kv ∈ cdSet cd name v, P kv.2 := by
  intro kv hkv
  unfold cdSet at hkv
  split_ifs at hkv with h
  · obtain ⟨a, ha, rfl⟩ := List.mem_map.mp hkv
    split_ifs
    · exact hv
    · exact hcd a ha
  · rcases List.mem_append.mp hkv with h1 | h1
    · exact hcd kv h1
    · simp only [List.mem_singleton] at h1
      rw [h1]
      exact hv

/-- Registry skills have nonnegative costs and cooldowns. -/
theorem SkillSystem.get_nonneg {name : String} {sk : Skill}
    (h : SkillSystem.get name = some sk) :
    0 ≤ sk.flow_cost ∧ 0 ≤ sk.stamina_cost ∧ 0 ≤ sk.cooldown := by
  rcases SkillSystem.get_mem h with rfl | rfl | rfl | rfl <;>
    refine ⟨?_, ?_, ?_⟩ <;>
    norm_num [powerShot, ironTackle, fieldVision, awakenUlt, AI_MAX_FLOW]

/-- Model of `use` preserves the resource invariant. -/
theorem SkillSystem.use_resourceInv {p : Player} (hp : p.resourceInv)
    (name : String) (now : ℚ) :
    ((SkillSystem.use p name now).1).resourceInv := by
  by_cases h : SkillSystem.can_use p name = true
  · obtain ⟨sk, hget, hfl, hst, hcd0⟩ := (can_use_true_iff p name).mp h
    obtain ⟨hfc, hsc, hcc⟩ := SkillSystem.get_nonneg hget
    obtain ⟨h1, h2, h3, h4, h5⟩ := hp
    have hu : SkillSystem.use p name now =
        (if sk.effectAwaken then
            Player.awaken { p with flow := p.flow - sk.flow_cost,
                                   stamina := p.stamina - sk.stamina_cost,
                                   skill_cd := cdSet p.skill_cd name sk.cooldown } now
          else
            { p with flow := p.flow - sk.flow_cost,
                     stamina := p.stamina - sk.stamina_cost,
                     skill_cd := cdSet p.skill_cd name sk.cooldown }, true) := by
      simp [SkillSystem.use, h, hget]
    have hp1 : ({ p with flow := p.flow - sk.flow_cost,
                         stamina := p.stamina - sk.stamina_cost,
                         skill_cd := cdSet p.skill_cd name sk.cooldown } : Player).resourceInv := by
      unfold Player.resourceInv
      dsimp only
      refine ⟨by linarith, by linarith, by linarith, by linarith, ?_⟩
      exact cdSet_forall h5 hcc name
    rw [hu]
    cases heff : sk.effectAwaken
    · simpa [heff] using hp1
    · simp only [heff, ite_true]
      exact Player.awaken_resourceInv hp1 now
  · have hfalse : SkillSystem.can_use p name = false := by
      cases hcu : SkillSystem.can_use p name
      · rfl
      · exact absurd hcu h
    simpa [SkillSystem.use, hfalse] using hp

/-- C6: the resource invariant — stamina in `[0, max_stamina]`, flow in
`[0, max_flow]`, every cooldown entry nonnegative — is preserved by any run
of per-tick updates with nonnegative `dt`s, by `use`, and by `awaken`. -/
theorem resource_invariant_preserved (p : Player) (hp : p.resourceInv) :
    (∀ steps : List (ℚ × Ball × AiEnv), (∀ s ∈ steps, 0 ≤ s.1) →
      (p.updateIter steps).resourceInv) ∧
    (∀ (name : String) (now : ℚ), ((SkillSystem.use p name now).1).resourceInv) ∧
    (∀ now : ℚ, (p.awaken now).resourceInv) :=
  ⟨fun steps hsteps => Player.updateIter_resourceInv steps p hp hsteps,
   fun name now => SkillSystem.use_resourceInv hp name now,
   fun now => Player.awaken_resourceInv hp now⟩



/-- Witness for C6: a freshly initialized AI midfielder keeps the invariant
through one tick of `update`. -/
theorem resource_invariant_preserved_witness :
    cP6.resourceInv ∧ (cP6.updateIter [cStep6]).resourceInv := by
  have hinv : cP6.resourceInv := by
    refine ⟨?_, ?_, ?_, ?_, ?_⟩ <;>
      norm_num [cP6, Player.init, AI_MAX_FLOW]
  refine ⟨hinv, (resource_invariant_preserved cP6 hinv).1 [cStep6] ?_⟩
  intro s hs
  simp only [List.mem_singleton] at hs
  rw [hs]
  norm_num [cStep6]
